import Mathlib

/-!
Shallow embedding of the eve-graph replication and risk engine, together
with theorems settling the specification claims about it.

The embedding follows the Rust sources:
* `database.rs` — graph-store adapter: the `System`/`Stargate` records, the
  Cypher-level operations (modelled as pure functions on an explicit
  database state), the risk formula `calculate_total_risk`, and the GDS
  named-projection management.
* `sync.rs` — the reconciler (`synchronize_esi_systems`), the per-item
  stargate pull policy (`pull_stargate`), the fan-out join primitive
  (`error_if_any_member_has_error`), and the risk refresh
  (`refresh_jump_risks`).
* `main.rs` — the startup orchestration sequence.

Numeric conventions: Rust `u32` counters are embedded as `Nat`, with
wrap-around (`% 2 ^ 32`) made explicit exactly where the Rust `u32`
arithmetic can overflow (release-build semantics; a debug build would
panic at the same inputs).  Rust `i32`/`i64` values are embedded as `Int`.
`f64` arithmetic is embedded as exact rational arithmetic over `ℚ`; the
spec's claims about the risk formula are stated at that exact level (the
repository's own tests compare against decimal literals, up to epsilon).
Fallible operations return `Except`; external HTTP fetches are passed in
as explicit functions from ids to fetch outcomes.
-/

namespace EveGraph

/-- The Rust `u32` modulus: `u32` arithmetic wraps modulo `2 ^ 32`. -/
def U32_MOD : Nat := 2 ^ 32

/-- From `database.rs` (`fn calculate_total_risk`): `kills_squared` is
`u32::pow(kills, 2)` (a `u32` square, hence taken modulo `2 ^ 32`); if
`jumps > 0` the risk is `kills_squared as f64 / jumps as f64`, otherwise
`kills_squared` itself; the baseline is added in either case. -/
def calculate_total_risk (kills jumps : Nat) (baseline_jump_risk : ℚ) : ℚ :=
  let kills_squared : Nat := kills ^ 2 % U32_MOD
  let system_jump_risk : ℚ :=
    if jumps > 0 then (kills_squared : ℚ) / (jumps : ℚ) else (kills_squared : ℚ)
  system_jump_risk + baseline_jump_risk

/-- Modelled from the spec: the catalog client's typed error kinds
(§7: "Sub-classified as NotFound, RateLimited, ServerError,
UnexpectedError, HttpTransport, ParseError").  The enum's definition
(the HTTP status classification) lives in a version of `esi.rs` that is
not in this snapshot; its variants are the ones matched by
`pull_stargate` in `sync.rs`.  Payload fields (status, body) are
irrelevant to every match in the sources and are omitted. -/
inductive RequestError where
  | NotFound
  | RateLimited
  | ServerError
  | UnexpectedError
  | HttpTransport
  | ParseError
deriving DecidableEq, Repr

/-- From `tokio::task::JoinError` as observed by the sources: a spawned
task panicked or was cancelled.  The payload is never inspected. -/
inductive JoinError where
  | panicked
  | cancelled
deriving DecidableEq, Repr

/-- From `sync.rs` (`enum ReplicationError`): Source wraps a catalog
`RequestError`, Process wraps a `JoinError`, Target wraps a database
error (the database error payload is never inspected by the claims and
is dropped). -/
inductive ReplicationError where
  | Source (e : RequestError)
  | Process (e : JoinError)
  | Target
deriving DecidableEq, Repr

/-- From `esi.rs` (`struct Position`). -/
structure Position where
  x : ℚ
  y : ℚ
  z : ℚ
deriving DecidableEq, Repr

/-- From `esi.rs` (`struct Planet`). -/
structure Planet where
  planet_id : Int
  asteroid_belts : Option (List Int)
  moons : Option (List Int)
deriving DecidableEq, Repr

/-- From `esi.rs` (`struct SystemEsiResponse`): the catalog's system
detail shape, most fields optional. -/
structure SystemEsiResponse where
  constellation_id : Option Int
  name : Option String
  planets : Option (List Planet)
  position : Position
  security_class : Option String
  security_status : ℚ
  star_id : Option Int
  stargates : Option (List Int)
  system_id : Int
deriving DecidableEq, Repr

/-- From `esi.rs` (`struct Destination`). -/
structure Destination where
  stargate_id : Int
  system_id : Int
deriving DecidableEq, Repr

/-- From `esi.rs` (`struct StargateEsiResponse`). -/
structure StargateEsiResponse where
  destination : Destination
  name : String
  position : Position
  stargate_id : Int
  system_id : Int
  type_id : Int
deriving DecidableEq, Repr

/-- From `database.rs` (`struct System`): the stored System node.
`kills` and `jumps` are Rust `u32` counters, embedded as `Nat`. -/
structure System where
  constellation_id : Int
  name : String
  planets : List Int
  x : ℚ
  y : ℚ
  z : ℚ
  security_class : String
  security_status : ℚ
  star_id : Int
  stargates : List Int
  system_id : Int
  kills : Nat
  jumps : Nat
deriving DecidableEq, Repr

/-- From `database.rs` (`struct Stargate`): the stored Stargate node. -/
structure Stargate where
  destination_stargate_id : Int
  destination_system_id : Int
  name : String
  x : ℚ
  y : ℚ
  z : ℚ
  stargate_id : Int
  system_id : Int
  type_id : Int
deriving DecidableEq, Repr

/-- A stored JUMP relationship.  `create_system_jump` writes `cost: 1`;
`risk` is absent until `set_system_jump_risk` sets it.  Edges are keyed
by the endpoint systems' `system_id` properties, which is how every
Cypher statement in `database.rs` addresses them. -/
structure Jump where
  source : Int
  dest : Int
  cost : ℚ
  risk : Option ℚ
deriving DecidableEq, Repr

/-- The graph database state: the multiset of System nodes, Stargate
nodes and JUMP relationships, each kept as a list (Neo4j stores nodes
with duplicate ids as distinct nodes, hence lists rather than sets). -/
structure DB where
  systems : List System
  stargates : List Stargate
  jumps : List Jump
deriving DecidableEq, Repr

/-- From `sync.rs` (`impl From<SystemEsiResponse> for System`): absent
optional fields default to `-1` / `"undefined"` / the empty list, and
the activity counters start at 0. -/
def System.ofEsiResponse (s : SystemEsiResponse) : System where
  constellation_id := s.constellation_id.getD (-1)
  name := s.name.getD "undefined"
  planets := (s.planets.getD []).map (fun planet => planet.planet_id)
  x := s.position.x
  y := s.position.y
  z := s.position.z
  security_class := s.security_class.getD "undefined"
  security_status := s.security_status
  star_id := s.star_id.getD (-1)
  stargates := s.stargates.getD []
  system_id := s.system_id
  kills := 0
  jumps := 0

/-- From `sync.rs` (`impl From<StargateEsiResponse> for Stargate`). -/
def Stargate.ofEsiResponse (value : StargateEsiResponse) : Stargate where
  destination_stargate_id := value.destination.stargate_id
  destination_system_id := value.destination.system_id
  name := value.name
  x := value.position.x
  y := value.position.y
  z := value.position.z
  stargate_id := value.stargate_id
  system_id := value.system_id
  type_id := value.type_id

/-- From `database.rs` (`get_all_system_ids`): one id per stored System
node. -/
def get_all_system_ids (db : DB) : List Int :=
  db.systems.map (fun s => s.system_id)

/-- From `database.rs` (`get_all_stargate_ids`). -/
def get_all_stargate_ids (db : DB) : List Int :=
  db.stargates.map (fun s => s.stargate_id)

/-- From `database.rs` (`get_system`): `MATCH ... LIMIT 1`, the first
stored node with the given `system_id`, if any. -/
def get_system (db : DB) (system_id : Int) : Option System :=
  db.systems.find? (fun s => s.system_id == system_id)

/-- From `database.rs` (`save_system`): an unconditional `CREATE` of a
new System node. -/
def save_system (db : DB) (system : System) : DB :=
  { db with systems := db.systems ++ [system] }

/-- From `database.rs` (`remove_systems_by_id`): `DETACH DELETE` every
System node whose id is in the given set, which also deletes every JUMP
relationship incident to a deleted node.  Since all nodes carrying a
removed id are deleted, the detached relationships are exactly those
with an endpoint id in the set. -/
def remove_systems_by_id (db : DB) (system_ids : List Int) : DB :=
  { db with
    systems := db.systems.filter (fun s => s.system_id ∉ system_ids)
    jumps := db.jumps.filter
      (fun j => j.source ∉ system_ids ∧ j.dest ∉ system_ids) }

/-- Key-based first-occurrence deduplication: keep the first element of
each key group, drop the rest.  This is the effect of the Cypher
`COLLECT`/`TAIL`/`DETACH DELETE` statement in
`remove_duplicate_systems` / `remove_duplicate_stargates`. -/
def dedupeByKey (key : α → Int) : List α → List α
  | [] => []
  | x :: xs => x :: (dedupeByKey key xs).filter (fun y => key y ≠ key x)

/-- From `database.rs` (`remove_duplicate_systems`): group System nodes
by `system_id` and detach-delete all but the first of each group.  (The
relationships detached from deleted duplicate nodes are not modelled:
edges are keyed by system id here, and no claim depends on which
duplicate node an edge was attached to.) -/
def remove_duplicate_systems (db : DB) : DB :=
  { db with systems := dedupeByKey (fun s => s.system_id) db.systems }

/-- From `database.rs` (`remove_duplicate_stargates`). -/
def remove_duplicate_stargates (db : DB) : DB :=
  { db with stargates := dedupeByKey (fun s => s.stargate_id) db.stargates }

/-- From `database.rs` (`jump_exists`): whether some JUMP relationship
runs from a node with the source id to a node with the destination id. -/
def jump_exists (db : DB) (source_system dest_system : Int) : Bool :=
  db.jumps.any (fun j => j.source == source_system && j.dest == dest_system)

/-- From `database.rs` (`create_system_jump`): `MATCH` a source node and
a destination node by id, then `CREATE` a JUMP with `cost: 1` for every
matched pair.  When either id matches no System node the Cypher yields
no row and nothing is created; with duplicate nodes the cartesian
product of matches is created. -/
def create_system_jump (db : DB) (source_system dest_system : Int) : DB :=
  let n_src := (db.systems.filter (fun s => s.system_id == source_system)).length
  let n_dst := (db.systems.filter (fun s => s.system_id == dest_system)).length
  { db with
    jumps := db.jumps ++ List.replicate (n_src * n_dst)
      { source := source_system, dest := dest_system, cost := 1, risk := none } }

/-- From `database.rs` (`create_system_jump_if_missing`). -/
def create_system_jump_if_missing (db : DB) (source_system dest_system : Int) : DB :=
  if jump_exists db source_system dest_system then db
  else create_system_jump db source_system dest_system

/-- From `database.rs` (`save_stargate`): unconditional `CREATE` of the
Stargate node, then ensure a JUMP from its parent system to its
destination system. -/
def save_stargate (db : DB) (stargate : Stargate) : DB :=
  let db1 := { db with stargates := db.stargates ++ [stargate] }
  create_system_jump_if_missing db1 stargate.system_id stargate.destination_system_id

/-- From `database.rs` (`save_wormhole`): two `create_system_jump`
calls, one per direction. -/
def save_wormhole (db : DB) (in_system_id out_system_id : Int) : DB :=
  let db1 := create_system_jump db in_system_id out_system_id
  create_system_jump db1 out_system_id in_system_id

/-- From `database.rs` (`set_system_jump_risk`): fetch the system; when
no node carries the id, return success without touching anything; else
compute `calculate_total_risk` on the stored counters and `SET r.risk`
on every JUMP relationship into a node with that id. -/
def set_system_jump_risk (db : DB) (system_id : Int) (baseline_jump_risk : ℚ) : DB :=
  match get_system db system_id with
  | none => db
  | some system =>
    let total_risk := calculate_total_risk system.kills system.jumps baseline_jump_risk
    { db with
      jumps := db.jumps.map (fun j =>
        if j.dest == system_id then { j with risk := some total_risk } else j) }

/-! ## Reconciler (`sync.rs`) -/

/-- From `sync.rs` (`pull_systems` / `pull_system`): for each id to add,
fetch the catalog detail and `save_system` the converted record.  The
detail fetch is passed in as an explicit function from ids to outcomes.
Concurrency note: the Rust code spawns one task per id and joins them;
the saves land in an arbitrary order and, when some fetch fails, an
arbitrary subset of the other saves may have landed before the error is
returned.  This embedding fixes the list order and performs no saves
after the first error; the claims it serves only constrain successful
runs, whose resulting id set does not depend on the order. -/
def pull_systems (fetchDetail : Int → Except RequestError SystemEsiResponse)
    (system_ids : List Int) (db : DB) : Except ReplicationError DB :=
  match system_ids with
  | [] => .ok db
  | system_id :: rest =>
    match fetchDetail system_id with
    | .ok response => pull_systems fetchDetail rest (save_system db (System.ofEsiResponse response))
    | .error e => .error (.Source e)

/-- Outcome of a `synchronize_esi_systems` run, instrumented with the
number of `remove_systems_by_id` calls issued and the number of detail
fetches spawned (for the spec's concrete reconcile scenario). -/
structure SyncOutcome where
  db : DB
  removal_calls : Nat
  detail_fetches : Nat
deriving DecidableEq, Repr

/-- From `sync.rs` (`synchronize_esi_systems`): fetch the catalog id
listing, diff it against the stored ids as sets (`HashSet`, embedded as
deduplicated lists — the diffs are used only as sets), remove the stale
ids (one `remove_systems_by_id` call, only when the diff is nonempty),
fan out a detail fetch and save per missing id (only when that diff is
nonempty), then run `remove_duplicate_systems`.  The catalog listing
fetch is passed in as an already-resolved outcome. -/
def synchronize_esi_systems
    (fetchIds : Except RequestError (List Int))
    (fetchDetail : Int → Except RequestError SystemEsiResponse)
    (db : DB) : Except ReplicationError SyncOutcome :=
  match fetchIds with
  | .error e => .error (.Source e)
  | .ok esi_system_ids =>
    let esi_set := esi_system_ids.dedup
    let db_set := (get_all_system_ids db).dedup
    let to_remove := db_set.filter (fun id => id ∉ esi_set)
    let removal_calls := if to_remove.isEmpty then 0 else 1
    let db1 := if to_remove.isEmpty then db else remove_systems_by_id db to_remove
    let to_add := esi_set.filter (fun id => id ∉ db_set)
    let pulled :=
      if to_add.isEmpty then Except.ok db1 else pull_systems fetchDetail to_add db1
    match pulled with
    | .error e => .error e
    | .ok db2 =>
      .ok { db := remove_duplicate_systems db2
            removal_calls := removal_calls
            detail_fetches := to_add.length }

/-- From `sync.rs` (`error_if_any_member_has_error`): drain a JoinSet in
completion order.  Each element of `results` is one `join_next` outcome
(`.error` = the task panicked / was cancelled, which `res.unwrap()`
turns into a caller panic, modelled as `none`; `.ok r` = the task ran to
completion with result `r`).  The function returns `Some` of the first
task error, or `Some` success after draining everything. -/
def error_if_any_member_has_error :
    List (Except JoinError (Except ε Unit)) → Option (Except ε Unit)
  | [] => some (.ok ())
  | .error _ :: _ => none
  | .ok (.error e) :: _ => some (.error e)
  | .ok (.ok ()) :: rest => error_if_any_member_has_error rest

/-- The number of `join_next` calls `error_if_any_member_has_error`
consumes on the given completion-ordered results: it stops at the first
task error (or panic) and never joins the tasks after it. -/
def joined_count : List (Except JoinError (Except ε Unit)) → Nat
  | [] => 0
  | .error _ :: _ => 1
  | .ok (.error _) :: _ => 1
  | .ok (.ok ()) :: rest => joined_count rest + 1

/-- From `sync.rs` (`pull_stargate`): fetch the stargate detail; on
success convert and `save_stargate`; a NotFound outcome is logged and
swallowed (`Ok`), a RateLimited outcome is returned as a Source error,
and every other error kind is logged and swallowed (`Ok`). -/
def pull_stargate (fetchRes : Except RequestError StargateEsiResponse)
    (db : DB) : Except ReplicationError DB :=
  match fetchRes with
  | .ok response => .ok (save_stargate db (Stargate.ofEsiResponse response))
  | .error err =>
    match err with
    | .NotFound => .ok db
    | .RateLimited => .error (.Source .RateLimited)
    | _ => .ok db

/-- From `sync.rs` (`pull_stargates`): one `pull_stargate` task per id
(the 50-permit semaphore bounds concurrency but not the set of fetches),
joined by `error_if_any_member_has_error`: the batch returns the first
per-item error, or success.  Embedded sequentially in list order; as for
`pull_systems`, only successful runs and the returned error value are
constrained by the claims. -/
def pull_stargates (fetchDetail : Int → Except RequestError StargateEsiResponse)
    (stargate_ids : List Int) (db : DB) : Except ReplicationError DB :=
  match stargate_ids with
  | [] => .ok db
  | stargate_id :: rest =>
    match pull_stargate (fetchDetail stargate_id) db with
    | .ok db1 => pull_stargates fetchDetail rest db1
    | .error e => .error e

/-! ## Activity and risk engine (`sync.rs`) -/

/-- From `sync.rs` (`refresh_jump_risks`): after the kill and jump pulls
produced the galaxy-wide sums (both Rust `i32`s, embedded as `Int`), the
baseline is their `f64` quotient when `galaxy_jumps > 0` and `0.01`
otherwise, and `set_system_jump_risk` runs for every stored system id
with that baseline. -/
def refresh_jump_risks (galaxy_kills galaxy_jumps : Int) (db : DB) : DB :=
  let baseline_jump_risk : ℚ :=
    if galaxy_jumps > 0 then (galaxy_kills : ℚ) / (galaxy_jumps : ℚ) else 1 / 100
  (get_all_system_ids db).foldl
    (fun d system_id => set_system_jump_risk d system_id baseline_jump_risk) db

/-- The baseline value `refresh_jump_risks` passes to every per-system
update, factored out for the statement of the baseline claim. -/
def baseline_jump_risk (galaxy_kills galaxy_jumps : Int) : ℚ :=
  if galaxy_jumps > 0 then (galaxy_kills : ℚ) / (galaxy_jumps : ℚ) else 1 / 100

/-- Modelled from the spec: the glossary's words "Baseline risk:
galaxy-wide kills÷jumps ratio, floored at 0.01", as a definition to be
compared with the code's `baseline_jump_risk`. -/
def baseline_risk_glossary (galaxy_kills galaxy_jumps : Int) : ℚ :=
  max ((galaxy_kills : ℚ) / (galaxy_jumps : ℚ)) (1 / 100)

/-! ## Named projections (`database.rs` GDS calls) -/

/-- The edge property a projection exposes as its weight. -/
inductive WeightProperty where
  | cost
  | risk
deriving DecidableEq, Repr

/-- The chosen weight property of a stored JUMP relationship: `cost` is
always present, `risk` only after a risk refresh wrote it. -/
def Jump.weight (j : Jump) : WeightProperty → Option ℚ
  | .cost => some j.cost
  | .risk => j.risk

/-- A named in-memory GDS projection: a snapshot of the System nodes and
JUMP relationships (with the chosen weight property) at build time. -/
structure GdsGraph where
  name : String
  nodes : List Int
  rels : List (Int × Int × Option ℚ)
deriving DecidableEq, Repr

/-- The GDS graph catalog: the named projections currently held. -/
abbrev GdsCatalog := List GdsGraph

/-- From `database.rs` (`graph_exists`): `CALL gds.graph.list` and scan
for the name. -/
def graph_exists (cat : GdsCatalog) (graph_name : String) : Bool :=
  cat.any (fun g => g.name == graph_name)

/-- The snapshot `gds.graph.project` takes: `System` node label, `JUMP`
relationship type, exposing the chosen relationship property. -/
def project_snapshot (db : DB) (graph_name : String) (w : WeightProperty) : GdsGraph where
  name := graph_name
  nodes := db.systems.map (fun s => s.system_id)
  rels := db.jumps.map (fun j => (j.source, j.dest, j.weight w))

/-- From `database.rs` (`drop_system_jump_graph`):
`CALL gds.graph.drop('system-map')`, returning the dropped graph's
name. -/
def drop_system_jump_graph (cat : GdsCatalog) : String × GdsCatalog :=
  ("system-map", cat.filter (fun g => g.name ≠ "system-map"))

/-- From `database.rs` (`drop_jump_risk_graph`). -/
def drop_jump_risk_graph (cat : GdsCatalog) : String × GdsCatalog :=
  ("jump-risk", cat.filter (fun g => g.name ≠ "jump-risk"))

/-- From `database.rs` (`build_system_jump_graph`):
`CALL gds.graph.project('system-map', 'System', 'JUMP', ...cost)`,
returning the projected graph's name. -/
def build_system_jump_graph (db : DB) (cat : GdsCatalog) : String × GdsCatalog :=
  ("system-map", cat ++ [project_snapshot db "system-map" .cost])

/-- From `database.rs` (`build_jump_risk_graph`). -/
def build_jump_risk_graph (db : DB) (cat : GdsCatalog) : String × GdsCatalog :=
  ("jump-risk", cat ++ [project_snapshot db "jump-risk" .risk])

/-- From `database.rs` (`refresh_jump_cost_graph`): drop `system-map` if
it exists, then project it afresh.  Returns the projected name alongside
the new catalog (the Rust function discards the name; it is kept here to
state the claim about it). -/
def refresh_jump_cost_graph (db : DB) (cat : GdsCatalog) : String × GdsCatalog :=
  let cat1 :=
    if graph_exists cat "system-map" then (drop_system_jump_graph cat).2 else cat
  build_system_jump_graph db cat1

/-- From `database.rs` (`refresh_jump_risk_graph`). -/
def refresh_jump_risk_graph (db : DB) (cat : GdsCatalog) : String × GdsCatalog :=
  let cat1 :=
    if graph_exists cat "jump-risk" then (drop_jump_risk_graph cat).2 else cat
  build_jump_risk_graph db cat1

/-- The name resolution `gds.util.asNode(nodeId).name`: the name of the (first) stored
System node with the given id. -/
def system_name (db : DB) (system_id : Int) : String :=
  match db.systems.find? (fun s => s.system_id == system_id) with
  | some s => s.name
  | none => ""

/-- All fuel-bounded walks through the projection's weighted
relationships from `cur` to `target`, with their accumulated weight;
relationships with an absent weight property are not traversable. -/
def routes_from (rels : List (Int × Int × Option ℚ)) (target : Int) :
    Nat → Int → List (List Int × ℚ)
  | 0, cur => if cur = target then [([cur], 0)] else []
  | fuel + 1, cur =>
    if cur = target then [([cur], 0)]
    else
      (rels.map (fun r =>
        if r.1 = cur then
          match r.2.2 with
          | some w =>
            (routes_from rels target fuel r.2.1).map
              (fun p => (cur :: p.1, w + p.2))
          | none => []
        else [])).foldr (fun a b => a ++ b) []

/-- The first route of minimal total weight, if any. -/
def min_route (routes : List (List Int × ℚ)) : Option (List Int) :=
  (routes.foldl (fun best p =>
    match best with
    | none => some p
    | some q => if p.2 < q.2 then some p else some q) none).map (fun p => p.1)

/-- Modelled from the spec: `find_route` (§4.A) — the external
`gds.shortestPath.dijkstra.stream` procedure is not part of this
repository, so the route query is modelled as: resolve both endpoint
names to System nodes (no row when either is absent), then return the
node-name sequence of a minimal-weight path through the named
projection's snapshot, or nothing when no route exists.  Here for the
`system-map` projection (`find_shortest_route` in `database.rs`). -/
def find_shortest_route (db : DB) (cat : GdsCatalog)
    (from_system_name to_system_name : String) : Option (List String) :=
  match db.systems.find? (fun s => s.name == from_system_name),
      db.systems.find? (fun s => s.name == to_system_name),
      cat.find? (fun g => g.name == "system-map") with
  | some src, some dst, some g =>
    (min_route (routes_from g.rels dst.system_id g.nodes.length src.system_id)).map
      (fun p => p.map (system_name db))
  | _, _, _ => none

/-- Modelled from the spec: as `find_shortest_route`, for the
`jump-risk` projection (`find_safest_route` in `database.rs`). -/
def find_safest_route (db : DB) (cat : GdsCatalog)
    (from_system_name to_system_name : String) : Option (List String) :=
  match db.systems.find? (fun s => s.name == from_system_name),
      db.systems.find? (fun s => s.name == to_system_name),
      cat.find? (fun g => g.name == "jump-risk") with
  | some src, some dst, some g =>
    (min_route (routes_from g.rels dst.system_id g.nodes.length src.system_id)).map
      (fun p => p.map (system_name db))
  | _, _, _ => none

/-! ## Startup orchestration (`main.rs`) -/

/-- The six startup steps `main` runs before serving routes. -/
inductive StartupStep where
  | syncSystems
  | syncStargates
  | refreshRisks
  | refreshRiskGraph
  | refreshWormholes
  | refreshCostGraph
deriving DecidableEq, Repr

/-- From `main.rs` (`main`, the startup block before `warp::serve`):
each argument tells whether the corresponding step, when reached,
succeeds.  Returns the list of steps that actually run, in execution
order, and whether the process survives to serve routes.  The control
flow is embedded from the source: a failed `synchronize_esi_systems`
only prints and skips to serving; a failed `synchronize_esi_stargates`
only prints, skipping `refresh_jump_risks` and the risk projection but
falling through to the wormhole refresh and the cost projection; the
four `.unwrap()` calls (risk refresh, risk projection, wormhole refresh,
cost projection) panic on failure, killing the process before it
serves. -/
def startup_trace (sysOk sgOk riskOk riskGraphOk whOk costOk : Bool) :
    List StartupStep × Bool :=
  if !sysOk then ([.syncSystems], true)
  else
    let inner : List StartupStep × Bool :=
      if sgOk then
        if riskOk then
          if riskGraphOk then ([.syncStargates, .refreshRisks, .refreshRiskGraph], true)
          else ([.syncStargates, .refreshRisks, .refreshRiskGraph], false)
        else ([.syncStargates, .refreshRisks], false)
      else ([.syncStargates], true)
    if !inner.2 then (.syncSystems :: inner.1, false)
    else if whOk then
      if costOk then
        (.syncSystems :: inner.1 ++ [.refreshWormholes, .refreshCostGraph], true)
      else (.syncSystems :: inner.1 ++ [.refreshWormholes, .refreshCostGraph], false)
    else (.syncSystems :: inner.1 ++ [.refreshWormholes], false)

/-! ## Claim C1 — the risk formula -/

/-- C1, counterexample: the claim as stated fails on the code because
`u32::pow(kills, 2)` is `u32` arithmetic.  At `kills = 65536`,
`jumps = 0`, `baseline = 0` the function returns `0` (the square wraps
to `0` modulo `2 ^ 32`; a debug build would panic), not
`kills ^ 2 + baseline`, and monotonicity in `kills` fails between
`65535` and `65536`. -/
theorem calculate_total_risk_overflow_cex :
    calculate_total_risk 65536 0 0 = 0 ∧
    ((65536 : ℚ) ^ 2 + 0 ≠ 0) ∧
    calculate_total_risk 65536 0 0 < calculate_total_risk 65535 0 0 := by
  refine ⟨?_, by norm_num, ?_⟩ <;> norm_num [calculate_total_risk, U32_MOD]

/-- C1, amended: `calculate_total_risk(kills, jumps, baseline)` returns
`baseline` when `kills = 0`; when `kills ^ 2` does not overflow `u32`
(`kills ≤ 65535`) it returns `kills ^ 2 + baseline` for `jumps = 0` and
`kills ^ 2 / jumps + baseline` for `jumps > 0`; the four concrete values
of the spec hold; it is monotone non-decreasing in `kills` on
`kills ≤ 65535` and monotone non-increasing in `jumps` whenever
`kills > 0` (for every `kills`, in fact). -/
theorem calculate_total_risk_spec :
    (calculate_total_risk 0 0 (1 / 10) = 1 / 10 ∧
     calculate_total_risk 5 0 (1 / 10) = 251 / 10 ∧
     calculate_total_risk 0 100 (1 / 10) = 1 / 10 ∧
     calculate_total_risk 10 200 (1 / 10) = 6 / 10) ∧
    (∀ (jumps : Nat) (b : ℚ), calculate_total_risk 0 jumps b = b) ∧
    (∀ (kills : Nat) (b : ℚ), kills ≤ 65535 →
      calculate_total_risk kills 0 b = (kills : ℚ) ^ 2 + b) ∧
    (∀ (kills jumps : Nat) (b : ℚ), kills ≤ 65535 → 0 < jumps →
      calculate_total_risk kills jumps b = (kills : ℚ) ^ 2 / (jumps : ℚ) + b) ∧
    (∀ (k1 k2 jumps : Nat) (b : ℚ), k1 ≤ k2 → k2 ≤ 65535 →
      calculate_total_risk k1 jumps b ≤ calculate_total_risk k2 jumps b) ∧
    (∀ (kills j1 j2 : Nat) (b : ℚ), 0 < kills → j1 ≤ j2 →
      calculate_total_risk kills j2 b ≤ calculate_total_risk kills j1 b) := by
  have hsq : ∀ kills : Nat, kills ≤ 65535 → kills ^ 2 % U32_MOD = kills ^ 2 := by
    intro kills h
    have h1 : kills ^ 2 ≤ 65535 ^ 2 := Nat.pow_le_pow_left h 2
    exact Nat.mod_eq_of_lt (lt_of_le_of_lt h1 (by norm_num [U32_MOD]))
  refine ⟨⟨?_, ?_, ?_, ?_⟩, ?_, ?_, ?_, ?_, ?_⟩
  · norm_num [calculate_total_risk, U32_MOD]
  · norm_num [calculate_total_risk, U32_MOD]
  · norm_num [calculate_total_risk, U32_MOD]
  · norm_num [calculate_total_risk, U32_MOD]
  · intro jumps b
    simp only [calculate_total_risk, U32_MOD]
    split <;> norm_num
  · intro kills b h
    simp only [calculate_total_risk, hsq kills h]
    norm_num
  · intro kills jumps b h hj
    simp only [calculate_total_risk, hsq kills h]
    rw [if_pos hj]
    norm_num
  · intro k1 k2 jumps b h12 h2
    simp only [calculate_total_risk, hsq k1 (le_trans h12 h2), hsq k2 h2]
    have hk : ((k1 ^ 2 : Nat) : ℚ) ≤ ((k2 ^ 2 : Nat) : ℚ) := by
      exact_mod_cast Nat.pow_le_pow_left h12 2
    split
    · rename_i hj
      have hjq : (0 : ℚ) < (jumps : ℚ) := by exact_mod_cast hj
      exact add_le_add_right (by gcongr) b
    · exact add_le_add_right hk b
  · intro kills j1 j2 b _hk h12
    simp only [calculate_total_risk]
    set K : ℚ := ((kills ^ 2 % U32_MOD : Nat) : ℚ) with hK
    have hK0 : (0 : ℚ) ≤ K := by positivity
    rcases Nat.eq_zero_or_pos j1 with h1 | h1
    · subst h1
      rcases Nat.eq_zero_or_pos j2 with h2 | h2
      · subst h2
        exact le_refl _
      · rw [if_pos h2, if_neg (lt_irrefl 0)]
        have hj2 : (1 : ℚ) ≤ (j2 : ℚ) := by exact_mod_cast h2
        have hd : K / (j2 : ℚ) ≤ K / 1 := by gcongr
        rw [div_one] at hd
        exact add_le_add_right hd b
    · have h2 : 0 < j2 := lt_of_lt_of_le h1 h12
      rw [if_pos h2, if_pos h1]
      have hj1 : (0 : ℚ) < (j1 : ℚ) := by exact_mod_cast h1
      have hj12 : (j1 : ℚ) ≤ (j2 : ℚ) := by exact_mod_cast h12
      have hd : K / (j2 : ℚ) ≤ K / (j1 : ℚ) := by gcongr
      exact add_le_add_right hd b

/-- Witness for `calculate_total_risk_spec`: its hypothesis-bearing
conjuncts applied at concrete inputs. -/
theorem calculate_total_risk_spec_witness :
    calculate_total_risk 5 0 (1 / 10) = (5 : ℚ) ^ 2 + 1 / 10 ∧
    calculate_total_risk 10 200 (1 / 10) = (10 : ℚ) ^ 2 / (200 : ℚ) + 1 / 10 ∧
    calculate_total_risk 3 2 (1 / 10) ≤ calculate_total_risk 4 2 (1 / 10) ∧
    calculate_total_risk 5 4 (1 / 10) ≤ calculate_total_risk 5 2 (1 / 10) :=
  ⟨calculate_total_risk_spec.2.2.1 5 (1 / 10) (by norm_num),
   calculate_total_risk_spec.2.2.2.1 10 200 (1 / 10) (by norm_num) (by norm_num),
   calculate_total_risk_spec.2.2.2.2.1 3 4 2 (1 / 10) (by norm_num) (by norm_num),
   calculate_total_risk_spec.2.2.2.2.2 5 2 4 (1 / 10) (by norm_num) (by norm_num)⟩

/-! ## Claim C10 — catalog response conversion defaults -/

/-- C10: converting a catalog system response maps every absent optional
field to its fixed default — `constellation_id` and `star_id` to `-1`,
`name` and `security_class` to `"undefined"`, the planet and stargate
lists to `[]` — and always initializes the `kills` and `jumps` counters
to `0`. -/
theorem system_of_esi_response_defaults :
    ∀ r : SystemEsiResponse,
      (r.constellation_id = none → (System.ofEsiResponse r).constellation_id = -1) ∧
      (r.star_id = none → (System.ofEsiResponse r).star_id = -1) ∧
      (r.name = none → (System.ofEsiResponse r).name = "undefined") ∧
      (r.security_class = none → (System.ofEsiResponse r).security_class = "undefined") ∧
      (r.planets = none → (System.ofEsiResponse r).planets = []) ∧
      (r.stargates = none → (System.ofEsiResponse r).stargates = []) ∧
      (System.ofEsiResponse r).kills = 0 ∧
      (System.ofEsiResponse r).jumps = 0 := by
  intro r
  refine ⟨?_, ?_, ?_, ?_, ?_, ?_, rfl, rfl⟩ <;>
    intro h <;> simp [System.ofEsiResponse, h]

/-- Witness for `system_of_esi_response_defaults` at a response with
every optional field absent. -/
theorem system_of_esi_response_defaults_witness :
    (System.ofEsiResponse
      ⟨none, none, none, ⟨0, 0, 0⟩, none, 0, none, none, 30000142⟩).constellation_id = -1 ∧
    (System.ofEsiResponse
      ⟨none, none, none, ⟨0, 0, 0⟩, none, 0, none, none, 30000142⟩).name = "undefined" ∧
    (System.ofEsiResponse
      ⟨none, none, none, ⟨0, 0, 0⟩, none, 0, none, none, 30000142⟩).kills = 0 := by
  have h := system_of_esi_response_defaults
    ⟨none, none, none, ⟨0, 0, 0⟩, none, 0, none, none, 30000142⟩
  exact ⟨h.1 rfl, h.2.2.1 rfl, h.2.2.2.2.2.2.1⟩

/-! ## Claim C9 — wormhole to an unknown system is silently dropped -/

/-- C9: when either endpoint id has no stored System node, the `MATCH`
clauses of `create_system_jump` yield no row, so no edge is created and
the database is unchanged (the operation still succeeds — these
functions are total here, matching the Rust functions returning `Ok`);
consequently `save_wormhole` on such a pair is a silent no-op. -/
theorem create_system_jump_missing_endpoint_noop :
    ∀ (db : DB) (a b : Int),
      ((∀ s ∈ db.systems, s.system_id ≠ a) ∨ (∀ s ∈ db.systems, s.system_id ≠ b)) →
      create_system_jump db a b = db ∧ save_wormhole db a b = db := by
  intro db a b h
  have noop : ∀ x y : Int,
      ((∀ s ∈ db.systems, s.system_id ≠ x) ∨ (∀ s ∈ db.systems, s.system_id ≠ y)) →
      create_system_jump db x y = db := by
    intro x y hxy
    unfold create_system_jump
    rcases hxy with hx | hy
    · have hfil : db.systems.filter (fun s => s.system_id == x) = [] := by
        rw [List.filter_eq_nil_iff]
        intro s hs
        simpa using hx s hs
      simp [hfil]
    · have hfil : db.systems.filter (fun s => s.system_id == y) = [] := by
        rw [List.filter_eq_nil_iff]
        intro s hs
        simpa using hy s hs
      simp [hfil]
  have h1 : create_system_jump db a b = db := noop a b h
  refine ⟨h1, ?_⟩
  unfold save_wormhole
  rw [h1]
  exact noop b a h.symm

/-- Witness for `create_system_jump_missing_endpoint_noop`: a database
holding only system 1 drops the wormhole `(1, 99)`. -/
theorem create_system_jump_missing_endpoint_noop_witness :
    save_wormhole
      ⟨[⟨-1, "A", [], 0, 0, 0, "u", 0, -1, [], 1, 0, 0⟩], [], []⟩ 1 99 =
      ⟨[⟨-1, "A", [], 0, 0, 0, "u", 0, -1, [], 1, 0, 0⟩], [], []⟩ :=
  (create_system_jump_missing_endpoint_noop
    ⟨[⟨-1, "A", [], 0, 0, 0, "u", 0, -1, [], 1, 0, 0⟩], [], []⟩ 1 99
    (Or.inr (by decide))).2

/-! ## Claim C5 — per-system risk update -/

/-- C5: `set_system_jump_risk(id, baseline)` is a silent no-op (still a
success) when no system with that id is stored; when one is stored, it
leaves the nodes alone and sets the `risk` property of exactly the
inbound JUMP edges of that id to `calculate_total_risk` of the
destination system's stored counters and the baseline. -/
theorem set_system_jump_risk_spec :
    ∀ (db : DB) (id : Int) (b : ℚ),
      ((∀ s ∈ db.systems, s.system_id ≠ id) → set_system_jump_risk db id b = db) ∧
      (∀ sys, get_system db id = some sys →
        (set_system_jump_risk db id b).systems = db.systems ∧
        (set_system_jump_risk db id b).stargates = db.stargates ∧
        (set_system_jump_risk db id b).jumps = db.jumps.map (fun j =>
          if j.dest = id then
            { j with risk := some (calculate_total_risk sys.kills sys.jumps b) }
          else j)) := by
  intro db id b
  constructor
  · intro h
    have hnone : get_system db id = none := by
      rw [get_system, List.find?_eq_none]
      intro s hs
      simpa using h s hs
    simp [set_system_jump_risk, hnone]
  · intro sys hsys
    have hfun : (fun j : Jump =>
        if j.dest == id then
          { j with risk := some (calculate_total_risk sys.kills sys.jumps b) }
        else j) = (fun j : Jump =>
        if j.dest = id then
          { j with risk := some (calculate_total_risk sys.kills sys.jumps b) }
        else j) := by
      funext j
      by_cases hj : j.dest = id <;> simp [hj]
    refine ⟨?_, ?_, ?_⟩ <;> simp [set_system_jump_risk, hsys, hfun]

/-- Witness for `set_system_jump_risk_spec`: a database holding system 1
(10 kills, 200 jumps) and one edge into it; updating the absent id 2 is
a no-op, updating id 1 rewrites the edge risk. -/
theorem set_system_jump_risk_spec_witness :
    set_system_jump_risk
      ⟨[⟨-1, "A", [], 0, 0, 0, "u", 0, -1, [], 1, 10, 200⟩], [],
        [⟨5, 1, 1, none⟩]⟩ 2 (1 / 10) =
      ⟨[⟨-1, "A", [], 0, 0, 0, "u", 0, -1, [], 1, 10, 200⟩], [],
        [⟨5, 1, 1, none⟩]⟩ ∧
    (set_system_jump_risk
      ⟨[⟨-1, "A", [], 0, 0, 0, "u", 0, -1, [], 1, 10, 200⟩], [],
        [⟨5, 1, 1, none⟩]⟩ 1 (1 / 10)).jumps =
      [⟨5, 1, 1, none⟩].map (fun j =>
        if j.dest = 1 then
          { j with risk := some (calculate_total_risk 10 200 (1 / 10)) }
        else j) :=
  ⟨(set_system_jump_risk_spec
      ⟨[⟨-1, "A", [], 0, 0, 0, "u", 0, -1, [], 1, 10, 200⟩], [],
        [⟨5, 1, 1, none⟩]⟩ 2 (1 / 10)).1 (by decide),
   ((set_system_jump_risk_spec
      ⟨[⟨-1, "A", [], 0, 0, 0, "u", 0, -1, [], 1, 10, 200⟩], [],
        [⟨5, 1, 1, none⟩]⟩ 1 (1 / 10)).2
      ⟨-1, "A", [], 0, 0, 0, "u", 0, -1, [], 1, 10, 200⟩ rfl).2.2⟩

/-! ## Claim C6 — the galaxy baseline -/

/-- C6, counterexample: the code's baseline is not "the galaxy-wide
kills-to-jumps ratio floored at 0.01" — with 0 galaxy kills and 1 galaxy
jump the code computes `0 / 1 = 0`, below the glossary's floor of
`0.01`.  The `0.01` branch is taken only when `galaxy_jumps = 0`. -/
theorem baseline_glossary_cex :
    baseline_jump_risk 0 1 = 0 ∧
    baseline_risk_glossary 0 1 = 1 / 100 ∧
    baseline_jump_risk 0 1 ≠ baseline_risk_glossary 0 1 := by
  norm_num [baseline_jump_risk, baseline_risk_glossary]

/-- C6, amended: in a risk refresh the baseline passed to every
per-system update is `galaxy_kills / galaxy_jumps` when
`galaxy_jumps > 0`, and `0.01` otherwise; `0.01` is a fallback for the
`galaxy_jumps = 0` case, not a floor on the ratio. -/
theorem refresh_jump_risks_baseline :
    ∀ (galaxy_kills galaxy_jumps : Int) (db : DB),
      refresh_jump_risks galaxy_kills galaxy_jumps db =
        (get_all_system_ids db).foldl
          (fun d system_id =>
            set_system_jump_risk d system_id
              (baseline_jump_risk galaxy_kills galaxy_jumps)) db ∧
      (0 < galaxy_jumps →
        baseline_jump_risk galaxy_kills galaxy_jumps =
          (galaxy_kills : ℚ) / (galaxy_jumps : ℚ)) ∧
      (¬ 0 < galaxy_jumps →
        baseline_jump_risk galaxy_kills galaxy_jumps = 1 / 100) := by
  intro galaxy_kills galaxy_jumps db
  refine ⟨rfl, ?_, ?_⟩ <;> intro h <;> simp [baseline_jump_risk, h]

/-- Witness for `refresh_jump_risks_baseline` at positive and zero
galaxy jump counts. -/
theorem refresh_jump_risks_baseline_witness :
    baseline_jump_risk 3 2 = (3 : ℚ) / (2 : ℚ) ∧
    baseline_jump_risk 7 0 = 1 / 100 :=
  ⟨(refresh_jump_risks_baseline 3 2 ⟨[], [], []⟩).2.1 (by norm_num),
   (refresh_jump_risks_baseline 7 0 ⟨[], [], []⟩).2.2 (by norm_num)⟩

/-! ## Claim C4 — the fan-out join primitive -/

/-- C4, counterexample: the primitive does not join all spawned tasks.
On the completion order "first task errored, second task succeeded" it
returns after a single `join_next`, leaving the second task unjoined
(the enclosing `JoinSet` aborts it on drop). -/
theorem error_if_any_member_joins_all_cex :
    joined_count
      ([.ok (.error ()), .ok (.ok ())] :
        List (Except JoinError (Except Unit Unit))) = 1 ∧
    ([.ok (.error ()), .ok (.ok ())] :
        List (Except JoinError (Except Unit Unit))).length = 2 ∧
    error_if_any_member_has_error
      ([.ok (.error ()), .ok (.ok ())] :
        List (Except JoinError (Except Unit Unit))) = some (.error ()) := by
  refine ⟨rfl, rfl, rfl⟩

/-- C4, amended: the fan-out primitive drains the task group in
completion order only until the first error: when every task succeeds it
joins them all and returns success; when some task returns an error it
returns that first error immediately, joining only the tasks up to and
including it (the remaining tasks are aborted when the `JoinSet` is
dropped, so none leak); a task panic (a `JoinError` surfacing before any
task error) is fatal to the caller via `unwrap`. -/
theorem error_if_any_member_has_error_spec {ε : Type} :
    (∀ results : List (Except JoinError (Except ε Unit)),
      (∀ r ∈ results, r = .ok (.ok ())) →
      error_if_any_member_has_error results = some (.ok ()) ∧
      joined_count results = results.length) ∧
    (∀ (pre post : List (Except JoinError (Except ε Unit))) (e : ε),
      (∀ r ∈ pre, r = .ok (.ok ())) →
      error_if_any_member_has_error (pre ++ .ok (.error e) :: post) =
        some (.error e) ∧
      joined_count (pre ++ .ok (.error e) :: post) = pre.length + 1) ∧
    (∀ (pre post : List (Except JoinError (Except ε Unit))) (j : JoinError),
      (∀ r ∈ pre, r = .ok (.ok ())) →
      error_if_any_member_has_error (pre ++ .error j :: post) = none) := by
  refine ⟨?_, ?_, ?_⟩
  · intro results h
    induction results with
    | nil => exact ⟨rfl, rfl⟩
    | cons r rest ih =>
      have hr : r = .ok (.ok ()) := h r (List.mem_cons_self r rest)
      subst hr
      have hrest := ih (fun x hx => h x (List.mem_cons_of_mem _ hx))
      exact ⟨hrest.1, by simp [joined_count, hrest.2]⟩
  · intro pre post e h
    induction pre with
    | nil => exact ⟨rfl, rfl⟩
    | cons r rest ih =>
      have hr : r = .ok (.ok ()) := h r (List.mem_cons_self r rest)
      subst hr
      have hrest := ih (fun x hx => h x (List.mem_cons_of_mem _ hx))
      refine ⟨hrest.1, ?_⟩
      have h2 := hrest.2
      simp only [List.cons_append, List.append_eq, joined_count,
        List.length_cons] at h2 ⊢
      omega
  · intro pre post j h
    induction pre with
    | nil => rfl
    | cons r rest ih =>
      have hr : r = .ok (.ok ()) := h r (List.mem_cons_self r rest)
      subst hr
      exact ih (fun x hx => h x (List.mem_cons_of_mem _ hx))

/-- Witness for `error_if_any_member_has_error_spec` on concrete
completion orders: all-success, error after one success, and a panic
after one success. -/
theorem error_if_any_member_has_error_spec_witness :
    (error_if_any_member_has_error
      ([.ok (.ok ()), .ok (.ok ())] :
        List (Except JoinError (Except Unit Unit))) = some (.ok ()) ∧
      joined_count
        ([.ok (.ok ()), .ok (.ok ())] :
          List (Except JoinError (Except Unit Unit))) = 2) ∧
    error_if_any_member_has_error
      ([.ok (.ok ()), .ok (.error ()), .ok (.ok ())] :
        List (Except JoinError (Except Unit Unit))) = some (.error ()) ∧
    error_if_any_member_has_error
      ([.ok (.ok ()), .error JoinError.panicked] :
        List (Except JoinError (Except Unit Unit))) = none := by
  refine ⟨?_, ?_, ?_⟩
  · exact (@error_if_any_member_has_error_spec Unit).1
      [.ok (.ok ()), .ok (.ok ())] (by intro r hr; fin_cases hr <;> rfl)
  · exact ((@error_if_any_member_has_error_spec Unit).2.1
      [.ok (.ok ())] [.ok (.ok ())] ()
      (by intro r hr; fin_cases hr; rfl)).1
  · exact (@error_if_any_member_has_error_spec Unit).2.2
      [.ok (.ok ())] [] JoinError.panicked
      (by intro r hr; fin_cases hr; rfl)

/-! ## Claim C3 — per-item stargate fetch error policy -/

/-- C3: inside a stargate batch pull, a per-item NotFound, ServerError
or UnexpectedError fetch outcome is swallowed (the item returns success
and the batch continues), while a RateLimited outcome is returned as a
Source error from the item and makes the batch return
`Source(RateLimited)`; a batch none of whose fetches are rate limited
completes successfully. -/
theorem pull_stargate_error_policy :
    ∀ db : DB,
      (pull_stargate (.error .NotFound) db = .ok db ∧
       pull_stargate (.error .ServerError) db = .ok db ∧
       pull_stargate (.error .UnexpectedError) db = .ok db ∧
       pull_stargate (.error .RateLimited) db =
         .error (.Source .RateLimited)) ∧
      ∀ (fetchDetail : Int → Except RequestError StargateEsiResponse)
        (ids : List Int),
        ((∀ id ∈ ids, fetchDetail id ≠ .error .RateLimited) →
          ∃ db1, pull_stargates fetchDetail ids db = .ok db1) ∧
        ((∃ id ∈ ids, fetchDetail id = .error .RateLimited) →
          pull_stargates fetchDetail ids db =
            .error (.Source .RateLimited)) := by
  have item : ∀ (d : DB) (res : Except RequestError StargateEsiResponse),
      res ≠ .error .RateLimited → ∃ d1, pull_stargate res d = .ok d1 := by
    intro d res h
    match res with
    | .ok response => exact ⟨_, rfl⟩
    | .error .NotFound => exact ⟨d, rfl⟩
    | .error .RateLimited => exact absurd rfl h
    | .error .ServerError => exact ⟨d, rfl⟩
    | .error .UnexpectedError => exact ⟨d, rfl⟩
    | .error .HttpTransport => exact ⟨d, rfl⟩
    | .error .ParseError => exact ⟨d, rfl⟩
  intro db
  refine ⟨⟨rfl, rfl, rfl, rfl⟩, ?_⟩
  intro fetchDetail ids
  induction ids generalizing db with
  | nil =>
    exact ⟨fun _ => ⟨db, rfl⟩, fun h => absurd h (by simp)⟩
  | cons id rest ih =>
    constructor
    · intro h
      obtain ⟨d1, hd1⟩ := item db (fetchDetail id)
        (h id (List.mem_cons_self id rest))
      obtain ⟨d2, hd2⟩ := (ih d1).1
        (fun x hx => h x (List.mem_cons_of_mem _ hx))
      refine ⟨d2, ?_⟩
      rw [pull_stargates, hd1]
      exact hd2
    · intro h
      rcases h with ⟨x, hx, hrate⟩
      rcases List.mem_cons.mp hx with hhead | htail
      · subst hhead
        rw [pull_stargates, hrate]
        rfl
      · by_cases hid : fetchDetail id = .error .RateLimited
        · rw [pull_stargates, hid]
          rfl
        · obtain ⟨d1, hd1⟩ := item db (fetchDetail id) hid
          rw [pull_stargates, hd1]
          exact (ih d1).2 ⟨x, htail, hrate⟩

/-- Witness for `pull_stargate_error_policy`: a batch over ids `[1, 2]`
whose fetches all fail with server errors completes successfully, while
a batch whose fetch of id 2 is rate limited fails with
`Source(RateLimited)`. -/
theorem pull_stargate_error_policy_witness :
    (∃ db1, pull_stargates (fun _ => .error .ServerError) [1, 2]
      ⟨[], [], []⟩ = .ok db1) ∧
    pull_stargates
      (fun i => if i = 2 then .error .RateLimited else .error .NotFound)
      [1, 2] ⟨[], [], []⟩ = .error (.Source .RateLimited) :=
  ⟨((pull_stargate_error_policy ⟨[], [], []⟩).2
      (fun _ => .error .ServerError) [1, 2]).1
      (by intro id _hid; simp),
   ((pull_stargate_error_policy ⟨[], [], []⟩).2
      (fun i => if i = 2 then .error .RateLimited else .error .NotFound)
      [1, 2]).2 ⟨2, by simp, by simp⟩⟩

/-! ## Claim C7 — startup ordering and abort-on-error -/

/-- C7, counterexample: the startup sequence does not stop at the first
failed step.  When `synchronize_esi_stargates` fails, the code only
prints the error: it skips the risk refresh and the risk projection but
still runs the wormhole refresh and the cost projection (and then
serves), so later steps do run after an earlier step has failed. -/
theorem startup_abort_cex :
    (startup_trace true false true true true true).1 =
      [.syncSystems, .syncStargates, .refreshWormholes, .refreshCostGraph] ∧
    StartupStep.refreshWormholes ∈ (startup_trace true false true true true true).1 := by
  exact ⟨rfl, by decide⟩

/-- C7, amended: on startup the orchestrator runs, in strict order,
system synchronization, stargate synchronization, jump-risk refresh,
jump-risk projection refresh, wormhole refresh, and cost projection
refresh.  A systems-sync failure skips every later step (though the
server still starts); a failure of the risk refresh, risk projection,
wormhole refresh or cost projection panics immediately, so nothing runs
after it; but a stargate-sync failure skips only the risk refresh and
risk projection — the wormhole refresh and cost projection still run. -/
theorem startup_order_spec :
    (startup_trace true true true true true true =
      ([.syncSystems, .syncStargates, .refreshRisks, .refreshRiskGraph,
        .refreshWormholes, .refreshCostGraph], true)) ∧
    (∀ a b c d e : Bool,
      startup_trace false a b c d e = ([.syncSystems], true)) ∧
    (∀ d e : Bool,
      startup_trace true true false true d e =
        ([.syncSystems, .syncStargates, .refreshRisks], false)) ∧
    (∀ d e : Bool,
      startup_trace true true true false d e =
        ([.syncSystems, .syncStargates, .refreshRisks, .refreshRiskGraph],
          false)) ∧
    (∀ e : Bool,
      startup_trace true true true true false e =
        ([.syncSystems, .syncStargates, .refreshRisks, .refreshRiskGraph,
          .refreshWormholes], false)) ∧
    (startup_trace true true true true true false =
      ([.syncSystems, .syncStargates, .refreshRisks, .refreshRiskGraph,
        .refreshWormholes, .refreshCostGraph], false)) ∧
    (∀ b c : Bool,
      startup_trace true false b c true true =
        ([.syncSystems, .syncStargates, .refreshWormholes,
          .refreshCostGraph], true)) := by
  decide

/-! ## Claim C8 — projection refresh idempotence -/

/-- The catalog left by a drop-if-exists-then-project refresh is
unchanged by a second identical refresh: the second refresh finds the
projection, drops exactly it, and rebuilds the same snapshot. -/
theorem refresh_generic_twice (db : DB) (n : String) (w : WeightProperty)
    (c : GdsCatalog) :
    (if graph_exists
        ((if graph_exists c n then c.filter (fun g => g.name ≠ n) else c) ++
          [project_snapshot db n w]) n
      then ((if graph_exists c n then c.filter (fun g => g.name ≠ n) else c) ++
          [project_snapshot db n w]).filter (fun g => g.name ≠ n)
      else (if graph_exists c n then c.filter (fun g => g.name ≠ n) else c) ++
          [project_snapshot db n w]) ++ [project_snapshot db n w] =
    (if graph_exists c n then c.filter (fun g => g.name ≠ n) else c) ++
      [project_snapshot db n w] := by
  have hex2 : graph_exists
      ((if graph_exists c n then c.filter (fun g => g.name ≠ n) else c) ++
        [project_snapshot db n w]) n = true := by
    simp [graph_exists, project_snapshot]
  rw [if_pos hex2, List.filter_append]
  have hsnap : [project_snapshot db n w].filter (fun g => g.name ≠ n) = [] := by
    simp [project_snapshot]
  rw [hsnap, List.append_nil]
  congr 1
  split
  · rw [List.filter_filter]
    simp
  · rename_i hex
    rw [List.filter_eq_self]
    intro g hg
    simp only [graph_exists, List.any_eq_true, beq_iff_eq, not_exists] at hex
    have hgn : ¬ g.name = n := fun h => hex g ⟨hg, h⟩
    simpa using hgn

/-- C8: refreshing a named projection drops it if present and projects
it anew from the `System` nodes and `JUMP` relationships with the chosen
weight property; both refreshes return their fixed graph name
(`system-map` / `jump-risk`), a second refresh in a row leaves the GDS
catalog identical, and hence the routing output over the projection is
unchanged. -/
theorem refresh_projection_idempotent :
    ∀ (db : DB) (cat : GdsCatalog),
      (refresh_jump_cost_graph db cat).1 = "system-map" ∧
      (refresh_jump_risk_graph db cat).1 = "jump-risk" ∧
      refresh_jump_cost_graph db (refresh_jump_cost_graph db cat).2 =
        refresh_jump_cost_graph db cat ∧
      refresh_jump_risk_graph db (refresh_jump_risk_graph db cat).2 =
        refresh_jump_risk_graph db cat ∧
      (∀ f t, find_shortest_route db
          (refresh_jump_cost_graph db (refresh_jump_cost_graph db cat).2).2 f t =
        find_shortest_route db (refresh_jump_cost_graph db cat).2 f t) ∧
      (∀ f t, find_safest_route db
          (refresh_jump_risk_graph db (refresh_jump_risk_graph db cat).2).2 f t =
        find_safest_route db (refresh_jump_risk_graph db cat).2 f t) := by
  intro db cat
  have hcost : refresh_jump_cost_graph db (refresh_jump_cost_graph db cat).2 =
      refresh_jump_cost_graph db cat :=
    congrArg (Prod.mk "system-map")
      (refresh_generic_twice db "system-map" WeightProperty.cost cat)
  have hrisk : refresh_jump_risk_graph db (refresh_jump_risk_graph db cat).2 =
      refresh_jump_risk_graph db cat :=
    congrArg (Prod.mk "jump-risk")
      (refresh_generic_twice db "jump-risk" WeightProperty.risk cat)
  exact ⟨rfl, rfl, hcost, hrisk,
    fun f t => by rw [hcost], fun f t => by rw [hrisk]⟩

/-! ## Claim C2 — system reconciliation -/

/-- Key-image membership is preserved by the dedupe pass: an id occurs
among the deduplicated nodes exactly when it occurred before. -/
theorem mem_map_dedupeByKey (key : α → Int) :
    ∀ (l : List α) (k : Int),
      k ∈ (dedupeByKey key l).map key ↔ k ∈ l.map key := by
  intro l
  induction l with
  | nil => intro k; simp [dedupeByKey]
  | cons a l ih =>
    intro k
    rw [dedupeByKey]
    simp only [List.map_cons, List.mem_cons]
    constructor
    · rintro (h | h)
      · exact Or.inl h
      · right
        rw [← ih k]
        obtain ⟨y, hy, hk⟩ := List.mem_map.mp h
        exact List.mem_map.mpr ⟨y, (List.mem_filter.mp hy).1, hk⟩
    · rintro (h | h)
      · exact Or.inl h
      · by_cases hk : k = key a
        · exact Or.inl hk
        · right
          obtain ⟨y, hy, hyk⟩ := List.mem_map.mp ((ih k).mpr h)
          refine List.mem_map.mpr ⟨y, List.mem_filter.mpr ⟨hy, ?_⟩, hyk⟩
          simp [hyk, hk]

/-- The dedupe pass leaves no duplicate key: the key image of the kept
nodes has no repeats. -/
theorem nodup_map_dedupeByKey (key : α → Int) :
    ∀ l : List α, ((dedupeByKey key l).map key).Nodup := by
  intro l
  induction l with
  | nil => simp [dedupeByKey]
  | cons a l ih =>
    rw [dedupeByKey]
    simp only [List.map_cons, List.nodup_cons]
    constructor
    · intro hmem
      obtain ⟨y, hy, hk⟩ := List.mem_map.mp hmem
      have hne := (List.mem_filter.mp hy).2
      simp only [ne_eq, decide_not, Bool.not_eq_eq_eq_not, Bool.not_true,
        decide_eq_false_iff_not] at hne
      exact hne hk
    · exact List.Nodup.sublist ((List.filter_sublist _).map key) ih

/-- Mapping a key through a filter on that key commutes. -/
theorem map_filter_comp (f : α → β) (p : β → Bool) (l : List α) :
    (l.filter (fun a => p (f a))).map f = (l.map f).filter p := by
  induction l with
  | nil => rfl
  | cons a l ih => by_cases h : p (f a) <;> simp [List.filter_cons, h, ih]

/-- The operation `remove_systems_by_id` removes exactly the stored ids in the given
set. -/
theorem ids_remove_systems_by_id (db : DB) (rm : List Int) :
    get_all_system_ids (remove_systems_by_id db rm) =
      (get_all_system_ids db).filter (fun id => id ∉ rm) := by
  show (db.systems.filter (fun s => s.system_id ∉ rm)).map
      (fun s => s.system_id) = _
  exact map_filter_comp (fun s => s.system_id)
    (fun id => decide (id ∉ rm)) db.systems

/-- The conditional removal step of the reconciler: whether or not the
removal set is empty, the surviving ids are the stored ids outside it. -/
theorem ids_after_removal (db : DB) (rm : List Int) :
    get_all_system_ids (if rm.isEmpty then db else remove_systems_by_id db rm) =
      (get_all_system_ids db).filter (fun id => id ∉ rm) := by
  by_cases h : rm.isEmpty
  · rw [if_pos h, List.isEmpty_iff.mp h]
    simp
  · rw [if_neg h]
    exact ids_remove_systems_by_id db rm

/-- A successful fan-out pull appends exactly the requested ids (given
that the catalog's detail endpoint answers each id with a record
carrying that id). -/
theorem pull_systems_ids
    (fetchDetail : Int → Except RequestError SystemEsiResponse) :
    ∀ (ids : List Int) (d d2 : DB),
      (∀ id ∈ ids, ∃ r, fetchDetail id = .ok r ∧ r.system_id = id) →
      pull_systems fetchDetail ids d = .ok d2 →
      get_all_system_ids d2 = get_all_system_ids d ++ ids := by
  intro ids
  induction ids with
  | nil =>
    intro d d2 _ hrun
    injection hrun with h
    rw [← h]
    simp
  | cons id rest ih =>
    intro d d2 hfetch hrun
    obtain ⟨r, hr, hid⟩ := hfetch id (List.mem_cons_self id rest)
    rw [pull_systems, hr] at hrun
    have hrec := ih (save_system d (System.ofEsiResponse r)) d2
      (fun x hx => hfetch x (List.mem_cons_of_mem _ hx)) hrun
    rw [hrec]
    have hsave : get_all_system_ids (save_system d (System.ofEsiResponse r)) =
        get_all_system_ids d ++ [r.system_id] := by
      simp [save_system, get_all_system_ids, System.ofEsiResponse]
    rw [hsave, hid]
    simp

/-- The common tail of the reconcile argument: when a database's id list
is (surviving old ids outside the stale set) followed by the missing
catalog ids, the dedupe pass leaves ids forming exactly the catalog set
with no repeats. -/
theorem sync_ids_core (esi_ids : List Int) (db dbX : DB)
    (hX : get_all_system_ids dbX =
      (get_all_system_ids db).filter
        (fun id => id ∉ ((get_all_system_ids db).dedup).filter
          (fun i => i ∉ esi_ids.dedup)) ++
      (esi_ids.dedup).filter (fun i => i ∉ (get_all_system_ids db).dedup)) :
    (∀ id : Int,
      id ∈ get_all_system_ids (remove_duplicate_systems dbX) ↔ id ∈ esi_ids) ∧
    (get_all_system_ids (remove_duplicate_systems dbX)).Nodup := by
  constructor
  · intro id
    have hmem : id ∈ get_all_system_ids (remove_duplicate_systems dbX) ↔
        id ∈ get_all_system_ids dbX := by
      unfold get_all_system_ids remove_duplicate_systems
      exact mem_map_dedupeByKey (fun s => s.system_id) dbX.systems id
    rw [hmem, hX]
    simp only [List.mem_append, List.mem_filter, List.mem_dedup,
      decide_eq_true_eq]
    constructor
    · rintro (⟨_hdb, hnot⟩ | ⟨hesi, _⟩)
      · by_contra hni
        exact hnot ⟨_hdb, hni⟩
      · exact hesi
    · intro hesi
      by_cases hdb : id ∈ get_all_system_ids db
      · exact Or.inl ⟨hdb, fun hc => hc.2 hesi⟩
      · exact Or.inr ⟨hesi, hdb⟩
  · show ((dedupeByKey (fun s => s.system_id) dbX.systems).map
      (fun s => s.system_id)).Nodup
    exact nodup_map_dedupeByKey (fun s => s.system_id) dbX.systems

/-- C2: after any successful `synchronize_esi_systems` run whose detail
endpoint answers each catalog id with a record carrying that id, the
stored system ids form exactly the catalog's id set with no id stored
twice; and on the spec's concrete scenario (database ids `{1,2,3}`,
catalog `{2,3,4}`) the run makes exactly one removal call, fetches
exactly one detail (id 4), and leaves ids `{2,3,4}`. -/
theorem synchronize_esi_systems_spec :
    (∀ (esi_ids : List Int)
        (fetchDetail : Int → Except RequestError SystemEsiResponse)
        (db : DB) (outcome : SyncOutcome),
      (∀ id ∈ esi_ids, ∃ r, fetchDetail id = .ok r ∧ r.system_id = id) →
      synchronize_esi_systems (.ok esi_ids) fetchDetail db = .ok outcome →
      ((∀ id : Int,
        id ∈ get_all_system_ids outcome.db ↔ id ∈ esi_ids) ∧
        (get_all_system_ids outcome.db).Nodup)) ∧
    ((synchronize_esi_systems (.ok [2, 3, 4])
        (fun i => .ok ⟨none, none, none, ⟨0, 0, 0⟩, none, 0, none, none, i⟩)
        ⟨[⟨-1, "A", [], 0, 0, 0, "u", 0, -1, [], 1, 0, 0⟩,
          ⟨-1, "B", [], 0, 0, 0, "u", 0, -1, [], 2, 0, 0⟩,
          ⟨-1, "C", [], 0, 0, 0, "u", 0, -1, [], 3, 0, 0⟩], [], []⟩).toOption.map
      (fun o => (o.removal_calls, o.detail_fetches, get_all_system_ids o.db)) =
      some (1, 1, [2, 3, 4])) := by
  constructor
  · intro esi_ids fetchDetail db outcome hfetch hrun
    simp only [synchronize_esi_systems] at hrun
    split at hrun
    · exact absurd hrun (by simp)
    · rename_i db2 heq
      simp only [Except.ok.injEq] at hrun
      rw [← hrun]
      split at heq
      · rename_i hempty
        injection heq with heq2
        refine sync_ids_core esi_ids db _ ?_
        rw [← heq2, ids_after_removal, List.isEmpty_iff.mp hempty]
        simp
      · refine sync_ids_core esi_ids db _ ?_
        rw [pull_systems_ids fetchDetail _ _ _
          (fun id hid => hfetch id (List.mem_dedup.mp (List.mem_filter.mp hid).1))
          heq, ids_after_removal]
  · rfl

/-- Witness for `synchronize_esi_systems_spec` at the concrete reconcile
scenario (database ids `{1,2,3}`, catalog `{2,3,4}`, a detail endpoint
answering id `i` with a record for `i`). -/
theorem synchronize_esi_systems_spec_witness :
    (∀ id : Int,
      id ∈ get_all_system_ids
        (⟨[⟨-1, "B", [], 0, 0, 0, "u", 0, -1, [], 2, 0, 0⟩,
           ⟨-1, "C", [], 0, 0, 0, "u", 0, -1, [], 3, 0, 0⟩,
           ⟨-1, "undefined", [], 0, 0, 0, "undefined", 0, -1, [], 4, 0, 0⟩],
          [], []⟩ : DB) ↔ id ∈ [2, 3, 4]) ∧
    (get_all_system_ids
      (⟨[⟨-1, "B", [], 0, 0, 0, "u", 0, -1, [], 2, 0, 0⟩,
         ⟨-1, "C", [], 0, 0, 0, "u", 0, -1, [], 3, 0, 0⟩,
         ⟨-1, "undefined", [], 0, 0, 0, "undefined", 0, -1, [], 4, 0, 0⟩],
        [], []⟩ : DB)).Nodup :=
  synchronize_esi_systems_spec.1 [2, 3, 4]
    (fun i => .ok ⟨none, none, none, ⟨0, 0, 0⟩, none, 0, none, none, i⟩)
    ⟨[⟨-1, "A", [], 0, 0, 0, "u", 0, -1, [], 1, 0, 0⟩,
      ⟨-1, "B", [], 0, 0, 0, "u", 0, -1, [], 2, 0, 0⟩,
      ⟨-1, "C", [], 0, 0, 0, "u", 0, -1, [], 3, 0, 0⟩], [], []⟩
    ⟨⟨[⟨-1, "B", [], 0, 0, 0, "u", 0, -1, [], 2, 0, 0⟩,
       ⟨-1, "C", [], 0, 0, 0, "u", 0, -1, [], 3, 0, 0⟩,
       ⟨-1, "undefined", [], 0, 0, 0, "undefined", 0, -1, [], 4, 0, 0⟩],
      [], []⟩, 1, 1⟩
    (fun id _hid =>
      ⟨⟨none, none, none, ⟨0, 0, 0⟩, none, 0, none, none, id⟩, rfl, rfl⟩)
    rfl

end EveGraph
